import Mathlib

/-!
Shallow embedding of the metadata normalization and multi-format rendering
pipeline of `find_ref.py` (ref_finder repository).

The adapters (`extract_metadata` with sources crossref, google_books,
semantic_scholar, open_library), the renderers (`format_json`, `format_csv`,
`format_bibtex`, `format_apa_from_metadata`) and the aggregation loop of
`main` are translated function by function.  Python operations that can raise
(indexing `[0]` / `[-1]` on a possibly empty list, `.get` on a possibly null
object) are embedded in `Option`: a `none` result marks the raising run.
-/

namespace RefFinder

/-! ## Python string primitives -/

/-- Python `str.lower()` (ASCII range, the only range exercised here). -/
def pyLower (s : String) : String :=
  String.mk (s.data.map Char.toLower)

/-- Python `str.strip()` with no arguments: drop whitespace at both ends. -/
def pyStrip (s : String) : String :=
  String.mk (((s.data.dropWhile Char.isWhitespace).reverse.dropWhile Char.isWhitespace).reverse)

/-- Worker for `pySplit`: accumulates the current word (reversed) while
scanning the character list. -/
def pySplitGo : List Char → List Char → List String
  | [], acc => if acc.isEmpty then [] else [String.mk acc.reverse]
  | c :: cs, acc =>
    if c.isWhitespace then
      if acc.isEmpty then pySplitGo cs [] else String.mk acc.reverse :: pySplitGo cs []
    else
      pySplitGo cs (c :: acc)

/-- Python `str.split()` with no arguments: split on whitespace runs,
discarding empty fields. -/
def pySplit (s : String) : List String :=
  pySplitGo s.data []

/-- Python `str.capitalize()`: first character uppercased, the rest lowercased. -/
def pyCapitalize (s : String) : String :=
  match s.data with
  | [] => ""
  | c :: cs => String.mk (c.toUpper :: cs.map Char.toLower)

/-- Worker for `pyReplaceChar`: rebuild the string substituting `r` for
every occurrence of `c`. -/
def pyReplaceCharGo (c : Char) (r : String) : List Char → String
  | [] => ""
  | d :: ds => (if d = c then r else String.mk [d]) ++ pyReplaceCharGo c r ds

/-- Python `s.replace(c, r)` for a one-character pattern `c`. -/
def pyReplaceChar (s : String) (c : Char) (r : String) : String :=
  pyReplaceCharGo c r s.data

/-- Python `s[0]` used under a nonempty guard: the first character as a
string, empty on the empty string. -/
def pyHeadStr (s : String) : String :=
  match s.data with
  | [] => ""
  | c :: _ => String.mk [c]

/-- Python `s.endswith(t)` for a one-character suffix `t`. -/
def pyEndsWithChar (s : String) (c : Char) : Bool :=
  s.data.getLast? == some c

/-- Decimal digits of a natural number; the first argument is fuel, always
called with at least the number itself. -/
def natDecimalGo : Nat → Nat → List Char
  | 0, _ => []
  | fuel + 1, n =>
    if n = 0 then [] else natDecimalGo fuel (n / 10) ++ [Char.ofNat (48 + n % 10)]

/-- Python `str(i)` for an integer. -/
def pyIntStr (i : Int) : String :=
  match i with
  | .ofNat 0 => "0"
  | .ofNat n => String.mk (natDecimalGo n n)
  | .negSucc m => "-" ++ String.mk (natDecimalGo (m + 1) (m + 1))

/-! ## Canonical data model

A Python metadata dictionary value for `year` is an `int`, a `str` or `None`
depending on the producing adapter; `YearVal` carries all three shapes. -/

inductive YearVal where
  | intY (n : Int)
  | strY (s : String)
  | noneY
  deriving DecidableEq, Repr

/-- Python truthiness of the year value (`None`, `''` and `0` are falsy). -/
def YearVal.truthy : YearVal → Bool
  | .intY n => n != 0
  | .strY s => s != ""
  | .noneY => false

/-- Rendering of the year value inside a Python f-string. -/
def YearVal.pyStr : YearVal → String
  | .intY n => pyIntStr n
  | .strY s => s
  | .noneY => "None"

/-- Rendering of the year value by the `csv` module (`None` writes as empty). -/
def YearVal.csvStr : YearVal → String
  | .intY n => pyIntStr n
  | .strY s => s
  | .noneY => ""

inductive SourceTag where
  | crossref | google_books | semantic_scholar | open_library
  deriving DecidableEq, Repr

def SourceTag.str : SourceTag → String
  | .crossref => "crossref"
  | .google_books => "google_books"
  | .semantic_scholar => "semantic_scholar"
  | .open_library => "open_library"

inductive RecType where
  | article | book
  deriving DecidableEq, Repr

def RecType.str : RecType → String
  | .article => "article"
  | .book => "book"

/-- The canonical metadata record: the dictionary built by `extract_metadata`.
An `Option` field models presence of the dictionary key (`none` = the key was
never set); adapters set string fields to `some ""` rather than leaving them
out, exactly as the Python code stores `''`. -/
structure Record where
  source : SourceTag
  type : RecType
  authors : List String := []
  title : Option String := none
  year : YearVal := .noneY
  journal : Option String := none
  volume : Option String := none
  issue : Option String := none
  pages : Option String := none
  doi : Option String := none
  url : Option String := none
  publisher : Option String := none
  isbn : Option String := none
  deriving DecidableEq, Repr

/-! ## BibTeX renderer (`generate_bibtex_key`, `format_bibtex`) -/

/-- `generate_bibtex_key(entry)`.  `authors[0].split()[-1]` raises `IndexError`
when the first author has no whitespace tokens, and
`entry.get('title', 'untitled').split()[0]` raises when the title is present
but has no tokens; both raising runs are `none`. -/
def generate_bibtex_key (entry : Record) : Option String :=
  let firstAuthorLast : Option String :=
    match entry.authors with
    | [] => some "Unknown"
    | a :: _ => (pySplit a).getLast?
  match firstAuthorLast with
  | none => none
  | some fal =>
    let yearStr := if entry.year.truthy then entry.year.pyStr else "0000"
    match pySplit (entry.title.getD "untitled") with
    | [] => none
    | w :: _ => some (pyLower (fal ++ yearStr ++ w))

/-- The `fields` list built inside the `format_bibtex` loop, in emission
order; a field is appended only when its value is truthy. -/
def bibFields (entry : Record) : List String :=
  let fields : List String := []
  let authorsJ := " and ".intercalate entry.authors
  let fields := if authorsJ != "" then fields ++ ["  author = \x7b" ++ authorsJ ++ "\x7d"] else fields
  let fields := if entry.title.getD "" != "" then fields ++ ["  title = \x7b" ++ entry.title.getD "" ++ "\x7d"] else fields
  let fields := if entry.year.truthy then fields ++ ["  year = \x7b" ++ entry.year.pyStr ++ "\x7d"] else fields
  match entry.type with
  | .article =>
    let fields := if entry.journal.getD "" != "" then fields ++ ["  journal = \x7b" ++ entry.journal.getD "" ++ "\x7d"] else fields
    let fields := if entry.volume.getD "" != "" then fields ++ ["  volume = \x7b" ++ entry.volume.getD "" ++ "\x7d"] else fields
    let fields := if entry.issue.getD "" != "" then fields ++ ["  number = \x7b" ++ entry.issue.getD "" ++ "\x7d"] else fields
    let fields := if entry.pages.getD "" != "" then fields ++ ["  pages = \x7b" ++ entry.pages.getD "" ++ "\x7d"] else fields
    if entry.doi.getD "" != "" then fields ++ ["  doi = \x7b" ++ entry.doi.getD "" ++ "\x7d"] else fields
  | .book =>
    let fields := if entry.publisher.getD "" != "" then fields ++ ["  publisher = \x7b" ++ entry.publisher.getD "" ++ "\x7d"] else fields
    if entry.isbn.getD "" != "" then fields ++ ["  isbn = \x7b" ++ entry.isbn.getD "" ++ "\x7d"] else fields

/-- One `@type{key, fields}` block of `format_bibtex`; `none` when the key
generation raises. -/
def bibtexEntry (entry : Record) : Option String :=
  match generate_bibtex_key entry with
  | none => none
  | some key =>
    some ("@" ++ entry.type.str ++ "\x7b" ++ key ++ ",\n" ++ ",\n".intercalate (bibFields entry) ++ "\n\x7d")

/-- The `entries` list accumulated by the `format_bibtex` loop; an exception
in any iteration aborts the whole call. -/
def bibtexEntries : List Record → Option (List String)
  | [] => some []
  | e :: rest =>
    match bibtexEntry e, bibtexEntries rest with
    | some s, some ss => some (s :: ss)
    | _, _ => none

/-- `format_bibtex(metadata_list)`: blocks joined by a blank line. -/
def format_bibtex (metadata_list : List Record) : Option String :=
  (bibtexEntries metadata_list).map (fun es => "\n\n".intercalate es)

/-! ## CSV renderer (`format_csv`) -/

/-- Minimal quoting done by the `csv` module: wrap in double quotes, doubling
inner quotes, when the field holds a delimiter, quote or line break. -/
def csvQuote (s : String) : String :=
  if s.data.any (fun c => c == ',' || c == '\"' || c == '\r' || c == '\n') then
    "\"" ++ pyReplaceChar s '\"' "\"\"" ++ "\""
  else s

def csvHeader : String :=
  "type,authors,title,year,journal,volume,issue,pages,doi,publisher,isbn,source"

/-- One data row of `format_csv`: the fixed column order, authors joined with
a comma-space, absent dictionary keys written as empty. -/
def csvRow (r : Record) : String :=
  ",".intercalate (([r.type.str, ", ".intercalate r.authors, r.title.getD "", r.year.csvStr,
    r.journal.getD "", r.volume.getD "", r.issue.getD "", r.pages.getD "", r.doi.getD "",
    r.publisher.getD "", r.isbn.getD "", r.source.str]).map csvQuote)

/-- `format_csv(metadata_list)`; the `csv` module terminates every row,
header included, with CRLF. -/
def format_csv (metadata_list : List Record) : String :=
  csvHeader ++ "\r\n" ++ String.join (metadata_list.map (fun r => csvRow r ++ "\r\n"))

/-! ## JSON renderer (`format_json`) -/

def hexDigit (n : Nat) : Char :=
  if n < 10 then Char.ofNat (48 + n) else Char.ofNat (87 + n)

/-- Escaping done by `json.dumps` with `ensure_ascii=False`. -/
def jsonEscapeChar (c : Char) : String :=
  if c = '\"' then "\\\""
  else if c = '\\' then "\\\\"
  else if c = '\n' then "\\n"
  else if c = '\r' then "\\r"
  else if c = '\t' then "\\t"
  else if c.toNat = 8 then "\\b"
  else if c.toNat = 12 then "\\f"
  else if c.toNat < 32 then "\\u00" ++ String.mk [hexDigit (c.toNat / 16), hexDigit (c.toNat % 16)]
  else String.mk [c]

def jsonStr (s : String) : String :=
  "\"" ++ String.join (s.data.map jsonEscapeChar) ++ "\""

def jsonYear : YearVal → String
  | .intY n => pyIntStr n
  | .strY s => jsonStr s
  | .noneY => "null"

/-- The authors array at object depth, as `json.dumps(..., indent=2)` lays
it out. -/
def jsonAuthors (authors : List String) : String :=
  match authors with
  | [] => "[]"
  | _ => "[\n" ++ ",\n".intercalate (authors.map (fun a => "      " ++ jsonStr a)) ++ "\n    ]"

/-- Key/value pairs of one serialized record, in the adapters' dictionary
insertion order (identical for all four sources once absent keys are
dropped); a `none` field means the key was never inserted. -/
def recordPairs (r : Record) : List (String × String) :=
  [("source", jsonStr r.source.str), ("authors", jsonAuthors r.authors)]
  ++ (match r.title with | some t => [("title", jsonStr t)] | none => [])
  ++ (match r.journal with | some j => [("journal", jsonStr j)] | none => [])
  ++ (match r.publisher with | some p => [("publisher", jsonStr p)] | none => [])
  ++ [("year", jsonYear r.year)]
  ++ (match r.volume with | some v => [("volume", jsonStr v)] | none => [])
  ++ (match r.issue with | some v => [("issue", jsonStr v)] | none => [])
  ++ (match r.pages with | some v => [("pages", jsonStr v)] | none => [])
  ++ (match r.doi with | some v => [("doi", jsonStr v)] | none => [])
  ++ (match r.url with | some v => [("url", jsonStr v)] | none => [])
  ++ (match r.isbn with | some v => [("isbn", jsonStr v)] | none => [])
  ++ [("type", jsonStr r.type.str)]

def recordJson (r : Record) : String :=
  "  \x7b\n" ++ ",\n".intercalate ((recordPairs r).map (fun kv => "    " ++ jsonStr kv.1 ++ ": " ++ kv.2)) ++ "\n  \x7d"

/-- `format_json(metadata_list)` = `json.dumps(metadata_list, indent=2,
ensure_ascii=False)`. -/
def format_json (metadata_list : List Record) : String :=
  match metadata_list with
  | [] => "[]"
  | _ => "[\n" ++ ",\n".intercalate (metadata_list.map recordJson) ++ "\n]"

/-! ## APA renderer (`format_apa_from_metadata`) -/

/-- One author of the APA author loop: names with at least two whitespace
tokens become `last, F.M.`, anything else passes through. -/
def apaFormatAuthor (author : String) : String :=
  let parts := pySplit author
  if parts.length > 1 then
    (parts.getLast?).getD "" ++ ", " ++ String.join (parts.dropLast.map (fun n => pyHeadStr n ++ "."))
  else author

/-- The APA `authors_str`: empty list gives the empty string, a single
author stands alone, otherwise all but the last join with comma-space and
the last follows `, & `. -/
def apaAuthorsStr (authors : List String) : String :=
  let authors_apa := authors.map apaFormatAuthor
  match authors_apa with
  | [] => ""
  | [a] => a
  | l => ", ".intercalate l.dropLast ++ ", & " ++ (l.getLast?).getD ""

/-- The APA title transform: empty titles pass the `if title:` guard
unchanged; otherwise the first character is uppercased and, for articles
only, the rest is lowercased. -/
def apaTitle (ty : RecType) (title : String) : String :=
  match title.data with
  | [] => title
  | c :: rest =>
    match ty with
    | .article => String.mk (c.toUpper :: rest.map Char.toLower)
    | .book => String.mk (c.toUpper :: rest)

def apaStopWords : List String :=
  ["a", "an", "the", "and", "but", "or", "for", "nor", "on", "at", "to", "from", "by", "in", "of"]

/-- Journal-name title casing of the APA article branch: every word is
capitalized unless it is a stop word in a non-initial position. -/
def journalTitleCase (journal : String) : String :=
  " ".intercalate ((pySplit journal).enum.map (fun iw =>
    if !(apaStopWords.contains (pyLower iw.2)) || iw.1 == 0 then pyCapitalize iw.2 else pyLower iw.2))

/-- The article reference up to and including the volume/issue segment
(everything `format_apa_from_metadata` appends before the pages). -/
def apaArticleBase (m : Record) : String :=
  let ref := apaAuthorsStr m.authors ++ " (" ++ m.year.pyStr ++ "). " ++ apaTitle m.type (m.title.getD "") ++ ". "
  let j := m.journal.getD ""
  let ref := if j != "" then ref ++ journalTitleCase j else ref
  let volume := m.volume.getD ""
  let issue := m.issue.getD ""
  if volume != "" then
    (ref ++ ", " ++ volume) ++ (if issue != "" then "(" ++ issue ++ ")" else "")
  else ref

/-- The article reference after the pages segment: a truthy pages value is
appended with every hyphen replaced by an en dash. -/
def apaArticleWithPages (m : Record) : String :=
  let p := m.pages.getD ""
  if p != "" then apaArticleBase m ++ ", " ++ pyReplaceChar p '-' "–" else apaArticleBase m

/-- The complete article branch: closing period and DOI handling. -/
def apaArticle (m : Record) : String :=
  let ref := apaArticleWithPages m
  let d := m.doi.getD ""
  if d != "" then
    (if pyEndsWithChar ref '.' then ref else ref ++ ".") ++ " https://doi.org/" ++ d
  else
    if pyEndsWithChar ref '.' then ref else ref ++ "."

/-- The book branch: publisher, closing period, optional ISBN tail. -/
def apaBook (m : Record) : String :=
  let ref := apaAuthorsStr m.authors ++ " (" ++ m.year.pyStr ++ "). " ++ apaTitle m.type (m.title.getD "")
  let p := m.publisher.getD ""
  let ref := if p != "" then ref ++ ". " ++ p else ref
  let ref := if pyEndsWithChar ref '.' then ref else ref ++ "."
  let i := m.isbn.getD ""
  if i != "" then ref ++ " ISBN: " ++ i else ref

/-- `format_apa_from_metadata(metadata)`; the canonical record type is the
closed article/book enum, so the unknown-type fallback line is unreachable. -/
def format_apa_from_metadata (m : Record) : String :=
  match m.type with
  | .article => apaArticle m
  | .book => apaBook m

/-- The text output branch of `main`: APA references joined by blank lines. -/
def format_apa_list (metadata_list : List Record) : String :=
  "\n\n".intercalate (metadata_list.map format_apa_from_metadata)

/-- The unused helper `_format_author_list` of the source (joins with a bare
ampersand, no initials). -/
def format_author_list (authors : List String) : String :=
  match authors with
  | [] => ""
  | [a] => a
  | l => ", ".intercalate l.dropLast ++ " & " ++ (l.getLast?).getD ""

/-! ## Provider adapters (`extract_metadata`)

Raw items are the provider-specific JSON structures; an `Option` field models
presence of the key in the raw dictionary.  A present-but-empty list where
the code indexes `[0]`, and a present-but-null object where the code calls
`.get`, reproduce the raising runs as `none` results. -/

structure CrossrefAuthor where
  given : Option String := none
  family : Option String := none
  deriving DecidableEq, Repr

/-- A raw Crossref work item.  `date_parts` models
`item['issued']['date-parts']` when both keys are present (`none` when either
is missing, which the code collapses into the `[[None]]` default). -/
structure CrossrefItem where
  author : Option (List CrossrefAuthor) := none
  title : Option (List String) := none
  container_title : Option (List String) := none
  date_parts : Option (List (List (Option Int))) := none
  volume : Option String := none
  issue : Option String := none
  page : Option String := none
  doi : Option String := none
  deriving DecidableEq, Repr

/-- The crossref branch of `extract_metadata`.  Indexing `[0]` into the
(defaulted) title, container-title and date-parts lists raises `IndexError`
when the raw value is a present empty list. -/
def extract_crossref (item : CrossrefItem) : Option Record :=
  let authors := (item.author.getD []).map (fun a =>
    pyStrip ((a.given.getD "") ++ " " ++ (a.family.getD "")))
  match item.title.getD [""] with
  | [] => none
  | t :: _ =>
    match item.container_title.getD [""] with
    | [] => none
    | j :: _ =>
      match item.date_parts.getD [[none]] with
      | [] => none
      | g :: _ =>
        let year : YearVal :=
          match g with
          | [] => .noneY
          | some n :: _ => .intY n
          | none :: _ => .noneY
        some { source := .crossref, type := .article, authors := authors, title := some t,
               journal := some j, year := year,
               volume := some (item.volume.getD ""), issue := some (item.issue.getD ""),
               pages := some (item.page.getD ""), doi := some (item.doi.getD "") }

structure GBIdentifier where
  type : Option String := none
  identifier : Option String := none
  deriving DecidableEq, Repr

structure GBVolumeInfo where
  authors : Option (List String) := none
  title : Option String := none
  publisher : Option String := none
  publishedDate : Option String := none
  industryIdentifiers : Option (List GBIdentifier) := none
  deriving DecidableEq, Repr

structure GBItem where
  volumeInfo : Option GBVolumeInfo := none
  deriving DecidableEq, Repr

/-- The identifier scan of the google_books branch: first ISBN_13 or ISBN_10
entry wins. -/
def gbIsbn : List GBIdentifier → String
  | [] => ""
  | i :: rest =>
    if i.type == some "ISBN_13" || i.type == some "ISBN_10" then i.identifier.getD ""
    else gbIsbn rest

/-- The google_books branch of `extract_metadata`; every access is a `.get`
with a default, so no run raises. -/
def extract_google_books (item : GBItem) : Record :=
  let vi := item.volumeInfo.getD {}
  let pd := vi.publishedDate.getD ""
  { source := .google_books, type := .book,
    authors := vi.authors.getD ["Unknown"],
    title := some (vi.title.getD ""),
    publisher := some (vi.publisher.getD "Unknown publisher"),
    year := .strY (if pd != "" then String.mk (pd.data.take 4) else ""),
    isbn := some (gbIsbn (vi.industryIdentifiers.getD [])) }

structure S2Author where
  name : Option String := none
  deriving DecidableEq, Repr

/-- The `journal` value of a Semantic Scholar item: the key may be absent,
hold JSON null, or hold an object with an optional name. -/
inductive S2Journal where
  | nullJ
  | obj (name : Option String)
  deriving DecidableEq, Repr

/-- The `externalIds` value: absent, null, or an object whose DOI key is
optional. -/
inductive S2ExternalIds where
  | nullE
  | obj (doi : Option String)
  deriving DecidableEq, Repr

structure S2Item where
  authors : Option (List S2Author) := none
  title : Option String := none
  venue : Option String := none
  journal : Option S2Journal := none
  year : Option Int := none
  externalIds : Option S2ExternalIds := none
  url : Option String := none
  deriving DecidableEq, Repr

/-- The semantic_scholar branch of `extract_metadata`.  The `or` between
venue and journal name short-circuits, so a null journal object only raises
(`AttributeError` on `.get`) when the venue is empty; a null externalIds
object always raises. -/
def extract_semantic_scholar (item : S2Item) : Option Record :=
  let authors := (item.authors.getD []).map (fun a => a.name.getD "")
  let venue := item.venue.getD ""
  let journalVal : Option String :=
    if venue != "" then some venue
    else
      match item.journal with
      | none => some ""
      | some .nullJ => none
      | some (.obj name) => some (name.getD "")
  match journalVal with
  | none => none
  | some journal =>
    let doiVal : Option String :=
      match item.externalIds with
      | none => some ""
      | some .nullE => none
      | some (.obj d) => some (d.getD "")
    match doiVal with
    | none => none
    | some doi =>
      some { source := .semantic_scholar, type := .article, authors := authors,
             title := some (item.title.getD ""),
             journal := some journal,
             year := match item.year with | none => .noneY | some n => .intY n,
             doi := some doi, url := some (item.url.getD "") }

structure OLItem where
  author_name : Option (List String) := none
  title : Option String := none
  publisher : Option (List String) := none
  first_publish_year : Option Int := none
  isbn : Option (List String) := none
  deriving DecidableEq, Repr

/-- The open_library branch of `extract_metadata`; the publisher and isbn
lists are indexed only under a truthiness guard, so no run raises. -/
def extract_open_library (item : OLItem) : Record :=
  { source := .open_library, type := .book,
    authors := item.author_name.getD ["Unknown"],
    title := some (item.title.getD ""),
    publisher := some (match item.publisher with
      | none => "Unknown publisher"
      | some [] => "Unknown publisher"
      | some (p :: _) => p),
    year := match item.first_publish_year with | none => .strY "" | some n => .intY n,
    isbn := some (match item.isbn with
      | none => ""
      | some [] => ""
      | some (i :: _) => i) }

/-- A raw item tagged with the source string `main` pairs it with. -/
inductive RawItem where
  | crossref (i : CrossrefItem)
  | google_books (i : GBItem)
  | semantic_scholar (i : S2Item)
  | open_library (i : OLItem)
  deriving DecidableEq, Repr

/-- `extract_metadata(item, source)` dispatching on the source tag. -/
def extract_metadata : RawItem → Option Record
  | .crossref i => extract_crossref i
  | .google_books i => some (extract_google_books i)
  | .semantic_scholar i => extract_semantic_scholar i
  | .open_library i => some (extract_open_library i)

/-- The `results` accumulation of `main`: successive `extend`s in the fixed
provider order. -/
def searchResults (c : List CrossrefItem) (g : List GBItem)
    (s : List S2Item) (o : List OLItem) : List RawItem :=
  let results : List RawItem := []
  let results := results ++ c.map RawItem.crossref
  let results := results ++ g.map RawItem.google_books
  let results := results ++ s.map RawItem.semantic_scholar
  let results := results ++ o.map RawItem.open_library
  results

/-! ## Domains, spec-side predicates and concrete example data -/

/-- The records on which `generate_bibtex_key` does not raise: the title
(defaulted to "untitled" when absent) has at least one whitespace token, and
so does the first author whenever the authors list is nonempty. -/
def bibSafe (r : Record) : Bool :=
  !(pySplit (r.title.getD "untitled")).isEmpty &&
  (r.authors.isEmpty || !(pySplit (r.authors.headD "")).isEmpty)

/-- Modelled from the spec: the data-model sentence that the `year` field
"is a single scalar that is either an integer or absent/empty — never a
non-empty string"; compared against the adapters' actual outputs. -/
def specYearScalar : YearVal → Bool
  | .intY _ => true
  | .strY s => s == ""
  | .noneY => true

/-- The record extracted from an all-absent Crossref raw item. -/
def crossrefEmptyRecord : Record :=
  { source := .crossref, type := .article, authors := [], title := some "",
    journal := some "", year := .noneY, volume := some "", issue := some "",
    pages := some "", doi := some "" }

/-- Example record for the BibTeX key claim. -/
def recDoe2020 : Record :=
  { source := .crossref, type := .article, authors := ["Jane Doe"],
    year := .intY 2020, title := some "Deep Learning Basics" }

/-- First record of a colliding-key pair (distinct journals, same key). -/
def recCollideA : Record :=
  { source := .crossref, type := .article, authors := ["Jane Doe"],
    year := .intY 2020, title := some "Deep Learning Basics", journal := some "A" }

/-- Second record of a colliding-key pair. -/
def recCollideB : Record :=
  { source := .crossref, type := .article, authors := ["Jane Doe"],
    year := .intY 2020, title := some "Deep Learning Basics", journal := some "B" }

/-- Article record with a plain page range, for the dash-substitution claim. -/
def recPages123 : Record :=
  { source := .crossref, type := .article, authors := ["Jane Doe"],
    title := some "T", year := .intY 2020, journal := some "J",
    volume := some "1", pages := some "123-145" }

/-- Record with a falsy year, for the "0000" key component. -/
def recNoYear : Record :=
  { source := .crossref, type := .article, authors := ["Jane Doe"],
    title := some "Deep Learning Basics" }

/-- Record with an empty authors list, for the "Unknown" key component. -/
def recNoAuthors : Record :=
  { source := .crossref, type := .article, authors := [],
    year := .intY 2020, title := some "Deep Learning" }

/-- Article record exercising the APA sentence-case transform. -/
def recTitleArticle : Record :=
  { source := .crossref, type := .article, title := some "the Future of ai",
    year := .strY "" }

/-- Book record exercising the APA first-letter-only transform. -/
def recTitleBook : Record :=
  { source := .open_library, type := .book, title := some "the great gatsby",
    year := .strY "" }

/-- Article record with the non-range pages value "S1-S10". -/
def recPagesS1 : Record :=
  { source := .crossref, type := .article, authors := ["Jane Doe"],
    title := some "T", year := .intY 2020, journal := some "J",
    volume := some "1", issue := some "2", pages := some "S1-S10", doi := some "10.1/x" }

/-- Article record with the hyphen-free pages value "e123". -/
def recPagesE : Record :=
  { source := .crossref, type := .article, authors := ["Jane Doe"],
    title := some "T", year := .intY 2020, journal := some "J",
    volume := some "1", pages := some "e123" }

/-- Concrete provider items for the aggregation-order claim. -/
def crossrefItemA : CrossrefItem := { doi := some "A" }

def crossrefItemB : CrossrefItem := { doi := some "B" }

def gbItemC : GBItem := { volumeInfo := some { title := some "C" } }

def olItemD : OLItem := { title := some "D" }

/-! ## Helper lemmas -/

theorem getD_cons_of_ne_nil {α : Type} (o : Option (List α)) (d : α) (h : o ≠ some []) :
    ∃ x xs, o.getD [d] = x :: xs := by
  cases o with
  | none => exact ⟨d, [], rfl⟩
  | some l =>
    cases l with
    | nil => exact absurd rfl h
    | cons x xs => exact ⟨x, xs, rfl⟩

theorem bibtexEntry_isSome_of_bibSafe (r : Record) (h : bibSafe r = true) :
    (bibtexEntry r).isSome = true := by
  unfold bibSafe at h
  rw [Bool.and_eq_true] at h
  obtain ⟨h1, h2⟩ := h
  rw [Bool.not_eq_true'] at h1
  unfold bibtexEntry generate_bibtex_key
  rcases ht : pySplit (r.title.getD "untitled") with _ | ⟨w, ws⟩
  · rw [ht] at h1
    simp at h1
  · rcases ha : r.authors with _ | ⟨a, rest⟩
    · simp [ha, ht]
    · rw [ha] at h2
      simp only [List.isEmpty_cons, List.headD_cons, Bool.false_or, Bool.not_eq_true'] at h2
      have hne : pySplit a ≠ [] := by
        intro hc
        rw [hc] at h2
        simp at h2
      obtain ⟨lastTok, hl⟩ := Option.isSome_iff_exists.mp (List.getLast?_isSome.mpr hne)
      simp [ha, ht, hl]

theorem bibtexEntries_isSome (l : List Record) (h : ∀ r ∈ l, bibSafe r = true) :
    (bibtexEntries l).isSome = true := by
  induction l with
  | nil => rfl
  | cons e rest ih =>
    have he := bibtexEntry_isSome_of_bibSafe e (h e (by simp))
    have hr := ih (fun r hrm => h r (by simp [hrm]))
    obtain ⟨s, hs⟩ := Option.isSome_iff_exists.mp he
    obtain ⟨ss, hss⟩ := Option.isSome_iff_exists.mp hr
    unfold bibtexEntries
    rw [hs, hss]
    rfl

theorem pyReplaceCharGo_id (c : Char) (r : String) :
    ∀ l : List Char, c ∉ l → pyReplaceCharGo c r l = String.mk l := by
  intro l
  induction l with
  | nil => intro _; rfl
  | cons d ds ih =>
    intro hmem
    have hd : d ≠ c := fun hdc => hmem (hdc ▸ List.mem_cons_self d ds)
    have hds : c ∉ ds := fun hin => hmem (List.mem_cons_of_mem d hin)
    unfold pyReplaceCharGo
    rw [if_neg hd, ih hds]
    rfl

theorem format_apa_article_decomp (m : Record) (hty : m.type = .article) :
    ∃ t, format_apa_from_metadata m = apaArticleWithPages m ++ t := by
  unfold format_apa_from_metadata
  rw [hty]
  unfold apaArticle
  by_cases hd : (m.doi.getD "" != "") = true
  · rw [if_pos hd]
    by_cases hp : (pyEndsWithChar (apaArticleWithPages m) '.') = true
    · exact ⟨" https://doi.org/" ++ m.doi.getD "", by rw [if_pos hp, String.append_assoc]⟩
    · exact ⟨"." ++ (" https://doi.org/" ++ m.doi.getD ""), by
        rw [if_neg hp, String.append_assoc, String.append_assoc]⟩
  · rw [if_neg hd]
    by_cases hp : (pyEndsWithChar (apaArticleWithPages m) '.') = true
    · exact ⟨"", by rw [if_pos hp, String.append_empty]⟩
    · exact ⟨".", by rw [if_neg hp]⟩

/-! ## Claim theorems -/

/-- C9: on the empty record list the CSV renderer yields exactly the fixed
header row and its line terminator, the JSON renderer yields the empty
array, the BibTeX renderer yields the empty string without raising, and the
APA text output is empty. -/
theorem c9_empty_render :
    format_csv [] = "type,authors,title,year,journal,volume,issue,pages,doi,publisher,isbn,source\r\n"
  ∧ format_json [] = "[]"
  ∧ format_bibtex [] = some ""
  ∧ format_apa_list [] = "" := by
  refine ⟨by decide, rfl, rfl, rfl⟩

/-- C4: counterexample — the crossref branch of extract_metadata raises
IndexError (modelled as none) on a raw item whose title field is present
but an empty list, so a malformed field can cause an exception. -/
theorem c4_counterexample :
    extract_metadata (RawItem.crossref { title := some [] }) = none := by
  decide

/-- C4 (amended): a raw item with every optional field absent yields, for
each of the four adapters and without raising, the record in which every
field carries its documented default; only certain malformed present fields
(for example a present-but-empty crossref title list) raise. -/
theorem c4_amended :
    extract_metadata (RawItem.crossref {}) = some crossrefEmptyRecord
  ∧ extract_metadata (RawItem.google_books {}) =
      some { source := .google_books, type := .book, authors := ["Unknown"], title := some "",
             publisher := some "Unknown publisher", year := .strY "", isbn := some "" }
  ∧ extract_metadata (RawItem.semantic_scholar {}) =
      some { source := .semantic_scholar, type := .article, authors := [], title := some "",
             journal := some "", year := .noneY, doi := some "", url := some "" }
  ∧ extract_metadata (RawItem.open_library {}) =
      some { source := .open_library, type := .book, authors := ["Unknown"], title := some "",
             publisher := some "Unknown publisher", year := .strY "", isbn := some "" } := by
  refine ⟨by decide, by decide, by decide, by decide⟩

/-- C1: counterexample — format_bibtex raises IndexError (modelled as none)
on a record whose title is the empty string, and likewise when the authors
list contains the empty-string name in first position, although the claim
asserts totality for exactly such records. -/
theorem c1_counterexample :
    format_bibtex [{ source := .crossref, type := .article, authors := ["Jane Doe"],
                     title := some "", year := .intY 2020 }] = none
  ∧ format_bibtex [{ source := .crossref, type := .article, authors := [""],
                     title := some "T", year := .intY 2020 }] = none := by
  refine ⟨by decide, by decide⟩

/-- C1 (amended): format_json, format_csv and format_apa_from_metadata are
total over the canonical data model (they are plain functions of the
embedding); format_bibtex succeeds on every list of records whose titles
and first authors tokenize nonempty; the crossref branch succeeds whenever
no present list-valued field is empty, and the semantic_scholar branch
whenever no present object-valued field is null. -/
theorem c1_amended :
    (∀ l : List Record, (∀ r ∈ l, bibSafe r = true) → (format_bibtex l).isSome = true)
  ∧ (∀ i : CrossrefItem, i.title ≠ some [] → i.container_title ≠ some [] →
      i.date_parts ≠ some [] → (extract_crossref i).isSome = true)
  ∧ (∀ i : S2Item, i.journal ≠ some .nullJ → i.externalIds ≠ some .nullE →
      (extract_semantic_scholar i).isSome = true) := by
  refine ⟨?_, ?_, ?_⟩
  · intro l h
    unfold format_bibtex
    obtain ⟨es, hes⟩ := Option.isSome_iff_exists.mp (bibtexEntries_isSome l h)
    rw [hes]
    rfl
  · intro i ht hc hd
    obtain ⟨t, ts, h1⟩ := getD_cons_of_ne_nil i.title "" ht
    obtain ⟨j, js, h2⟩ := getD_cons_of_ne_nil i.container_title "" hc
    obtain ⟨g, gs, h3⟩ := getD_cons_of_ne_nil i.date_parts [none] hd
    unfold extract_crossref
    rw [h1, h2, h3]
    rfl
  · intro i hj he
    simp only [extract_semantic_scholar]
    have h1 : (if i.venue.getD "" != "" then some (i.venue.getD "")
               else match i.journal with
                    | none => some ""
                    | some .nullJ => none
                    | some (.obj name) => some (name.getD "")).isSome = true := by
      split
      · rfl
      · cases hjj : i.journal with
        | none => rfl
        | some jv =>
          cases jv with
          | nullJ => exact absurd hjj hj
          | obj name => rfl
    obtain ⟨j, hjv⟩ := Option.isSome_iff_exists.mp h1
    rw [hjv]
    have h2 : (match i.externalIds with
               | none => some ""
               | some .nullE => none
               | some (.obj d) => some (d.getD "")).isSome = true := by
      cases hee : i.externalIds with
      | none => rfl
      | some ev =>
        cases ev with
        | nullE => exact absurd hee he
        | obj d => rfl
    obtain ⟨d, hdv⟩ := Option.isSome_iff_exists.mp h2
    rw [hdv]
    rfl

/-- C1: witness — the amended totality theorem applied at concrete inputs:
a well-tokenized record list for format_bibtex, and all-absent raw items
for the two adapters that can raise. -/
theorem c1_witness :
    (format_bibtex [recDoe2020]).isSome = true
  ∧ (extract_crossref {}).isSome = true
  ∧ (extract_semantic_scholar {}).isSome = true :=
  ⟨c1_amended.1 [recDoe2020] (by decide),
   c1_amended.2.1 {} (by decide) (by decide) (by decide),
   c1_amended.2.2 {} (by decide) (by decide)⟩

/-- C5: counterexample — for a google_books raw item with publishedDate
"2020-05-01" the produced year is the non-empty string "2020", so the year
field is not always an integer or absent/empty. -/
theorem c5_counterexample :
    (extract_google_books { volumeInfo := some { publishedDate := some "2020-05-01" } }).year
      = YearVal.strY "2020"
  ∧ specYearScalar
      (extract_google_books { volumeInfo := some { publishedDate := some "2020-05-01" } }).year
      = false := by
  refine ⟨by decide, by decide⟩

/-- C5 (amended): the crossref and semantic_scholar years are an integer or
absent (None); the google_books year is always a string, the first four
characters of publishedDate ('' when absent); the open_library year is the
verbatim first_publish_year integer or the empty string. -/
theorem c5_amended :
    (∀ i : GBItem, (extract_google_books i).year =
       .strY (String.mk (((i.volumeInfo.getD {}).publishedDate.getD "").data.take 4)))
  ∧ (∀ (i : CrossrefItem) (r : Record), extract_crossref i = some r →
       r.year = .noneY ∨ ∃ n, r.year = .intY n)
  ∧ (∀ (i : S2Item) (r : Record), extract_semantic_scholar i = some r →
       r.year = .noneY ∨ ∃ n, r.year = .intY n)
  ∧ (∀ i : OLItem, (extract_open_library i).year = .strY "" ∨
       ∃ n, (extract_open_library i).year = .intY n) := by
  refine ⟨?_, ?_, ?_, ?_⟩
  · intro i
    simp only [extract_google_books]
    by_cases hpd : ((i.volumeInfo.getD {}).publishedDate.getD "" != "") = true
    · rw [if_pos hpd]
    · rw [if_neg hpd]
      simp only [Bool.not_eq_true, bne_eq_false_iff_eq] at hpd
      rw [hpd]
      rfl
  · intro i r h
    simp only [extract_crossref] at h
    split at h
    · exact absurd h (by simp)
    · split at h
      · exact absurd h (by simp)
      · split at h
        · exact absurd h (by simp)
        · rename_i g gs hg
          rw [Option.some_inj] at h
          subst h
          rcases g with _ | ⟨c, cs⟩
          · exact Or.inl rfl
          · rcases c with _ | n
            · exact Or.inl rfl
            · exact Or.inr ⟨n, rfl⟩
  · intro i r h
    simp only [extract_semantic_scholar] at h
    split at h
    · exact absurd h (by simp)
    · split at h
      · exact absurd h (by simp)
      · rw [Option.some_inj] at h
        subst h
        cases i.year with
        | none => exact Or.inl rfl
        | some n => exact Or.inr ⟨n, rfl⟩
  · intro i
    cases hy : i.first_publish_year with
    | none => exact Or.inl (by simp [extract_open_library, hy])
    | some n => exact Or.inr ⟨n, by simp [extract_open_library, hy]⟩

/-- C5: witness — the amended year-shape theorem applied at concrete raw
items for each provider. -/
theorem c5_witness :
    ((extract_google_books { volumeInfo := some { publishedDate := some "2020-05-01" } }).year =
       .strY (String.mk ("2020-05-01".data.take 4)))
  ∧ (crossrefEmptyRecord.year = .noneY ∨ ∃ n, crossrefEmptyRecord.year = .intY n)
  ∧ ((extract_open_library {}).year = .strY "" ∨ ∃ n, (extract_open_library {}).year = .intY n) :=
  ⟨c5_amended.1 { volumeInfo := some { publishedDate := some "2020-05-01" } },
   c5_amended.2.1 {} crossrefEmptyRecord (by decide),
   c5_amended.2.2.2 {}⟩

/-- C2: counterexample — in the APA renderer two authors are joined with a
comma before the ampersand: ["Jane Doe","John Smith"] renders as
"Doe, J., & Smith, J.", not "Doe, J. & Smith, J." as the claim states. -/
theorem c2_counterexample :
    apaAuthorsStr ["Jane Doe", "John Smith"] = "Doe, J., & Smith, J."
  ∧ apaAuthorsStr ["Jane Doe", "John Smith"] ≠ "Doe, J. & Smith, J." := by
  refine ⟨by decide, by decide⟩

/-- C2 (amended): per-name formatting and the join rule hold as claimed
(last token, comma-space, period-terminated initials with no separating
space; zero authors empty, one author alone, ≥2 joined with comma-space and
a final comma-ampersand), and the one- and three-author examples hold; but
the two-author example renders with the comma before the ampersand:
"Doe, J., & Smith, J.". -/
theorem c2_amended :
    (∀ (name lastTok : String) (ps : List String), pySplit name = ps ++ [lastTok] → ps ≠ [] →
       apaFormatAuthor name =
         lastTok ++ ", " ++ String.join (ps.map (fun n => pyHeadStr n ++ ".")))
  ∧ (∀ (name t : String), pySplit name = [t] → apaFormatAuthor name = name)
  ∧ apaAuthorsStr [] = ""
  ∧ (∀ a : String, apaAuthorsStr [a] = apaFormatAuthor a)
  ∧ (∀ (a b : String) (l : List String), apaAuthorsStr (a :: b :: l) =
       ", ".intercalate ((a :: b :: l).map apaFormatAuthor).dropLast ++ ", & " ++
       (((a :: b :: l).map apaFormatAuthor).getLast?).getD "")
  ∧ apaFormatAuthor "Jane Mary Doe" = "Doe, J.M."
  ∧ apaAuthorsStr ["Jane Doe", "John Smith"] = "Doe, J., & Smith, J."
  ∧ apaAuthorsStr ["Jane Doe", "John Smith", "Ann Lee"] = "Doe, J., Smith, J., & Lee, A." := by
  refine ⟨?_, ?_, rfl, fun a => rfl, fun a b l => rfl, by decide, by decide, by decide⟩
  · intro name lastTok ps hsplit hps
    unfold apaFormatAuthor
    rw [hsplit]
    have hlen : (ps ++ [lastTok]).length > 1 := by
      have hpos := List.length_pos.mpr hps
      rw [List.length_append, List.length_singleton]
      omega
    rw [if_pos hlen, List.getLast?_concat, List.dropLast_concat]
    rfl
  · intro name t hsplit
    unfold apaFormatAuthor
    rw [hsplit]
    rfl

/-- C2: witness — the amended author-formatting theorem applied to concrete
multi-token and single-token names. -/
theorem c2_witness :
    apaFormatAuthor "Jane Mary Doe" =
      "Doe" ++ ", " ++ String.join (["Jane", "Mary"].map (fun n => pyHeadStr n ++ "."))
  ∧ apaFormatAuthor "Plato" = "Plato" :=
  ⟨c2_amended.1 "Jane Mary Doe" "Doe" ["Jane", "Mary"] (by decide) (by decide),
   c2_amended.2.1 "Plato" "Plato" (by decide)⟩

/-- C3: counterexample — the APA renderer substitutes the hyphen even in the
non-range pages value "S1-S10": the rendered reference carries "S1–S10"
(en dash), so the value does not pass through unmodified as claimed. -/
theorem c3_counterexample :
    format_apa_from_metadata recPagesS1 =
      "Doe, J. (2020). T. J, 1(2), S1–S10. https://doi.org/10.1/x"
  ∧ format_apa_from_metadata recPagesS1 ≠
      "Doe, J. (2020). T. J, 1(2), S1-S10. https://doi.org/10.1/x" := by
  refine ⟨by decide, by decide⟩

set_option maxRecDepth 4000

/-- C3 (amended): for ARTICLE records the APA renderer replaces every hyphen
of a nonempty pages value with an en dash (single ranges such as "123-145"
and equally non-range values such as "S1-S10"); only hyphen-free values
(such as "e123") pass through unchanged; the CSV, JSON and BibTeX renderers
apply no dash substitution and keep the pages string verbatim up to their
generic quoting. -/
theorem c3_amended :
    (∀ (m : Record) (p : String), m.type = .article → m.pages = some p → p ≠ "" →
       ∃ t, format_apa_from_metadata m =
         apaArticleBase m ++ ", " ++ pyReplaceChar p '-' "–" ++ t)
  ∧ (∀ s : String, '-' ∉ s.data → pyReplaceChar s '-' "–" = s)
  ∧ format_apa_from_metadata recPages123 = "Doe, J. (2020). T. J, 1, 123–145."
  ∧ format_apa_from_metadata recPagesE = "Doe, J. (2020). T. J, 1, e123."
  ∧ (∀ p : String,
       (p.data.any (fun c => c == ',' || c == '\"' || c == '\r' || c == '\n')) = false →
       csvQuote p = p)
  ∧ (∀ (entry : Record) (p : String), entry.type = .article → entry.pages = some p → p ≠ "" →
       "  pages = \x7b" ++ p ++ "\x7d" ∈ bibFields entry)
  ∧ format_csv [recPages123] =
      "type,authors,title,year,journal,volume,issue,pages,doi,publisher,isbn,source\r\narticle,Jane Doe,T,2020,J,1,,123-145,,,,crossref\r\n"
  ∧ format_json [recPages123] =
      "[\n  \x7b\n    \"source\": \"crossref\",\n    \"authors\": [\n      \"Jane Doe\"\n    ],\n    \"title\": \"T\",\n    \"journal\": \"J\",\n    \"year\": 2020,\n    \"volume\": \"1\",\n    \"pages\": \"123-145\",\n    \"type\": \"article\"\n  \x7d\n]" := by
  refine ⟨?_, ?_, by decide, by decide, ?_, ?_, by decide, by decide⟩
  · intro m p hty hp hpne
    obtain ⟨t, ht⟩ := format_apa_article_decomp m hty
    refine ⟨t, ?_⟩
    rw [ht]
    simp only [apaArticleWithPages]
    rw [hp]
    simp only [Option.getD_some]
    rw [if_pos (bne_iff_ne.mpr hpne)]
  · intro s h
    unfold pyReplaceChar
    rw [pyReplaceCharGo_id _ _ _ h]
  · intro p h
    simp [csvQuote, h]
  · intro entry p hty hp hpne
    simp only [bibFields]
    rw [hty, hp]
    simp only [Option.getD_some]
    rw [if_pos (bne_iff_ne.mpr hpne)]
    split <;> simp

/-- C3: witness — the amended dash-substitution theorem applied to the
concrete "123-145" record, the hyphen-free value "e123" and the CSV and
BibTeX verbatim facts. -/
theorem c3_witness :
    (∃ t, format_apa_from_metadata recPages123 =
       apaArticleBase recPages123 ++ ", " ++ pyReplaceChar "123-145" '-' "–" ++ t)
  ∧ pyReplaceChar "e123" '-' "–" = "e123"
  ∧ csvQuote "123-145" = "123-145"
  ∧ "  pages = \x7b" ++ "123-145" ++ "\x7d" ∈ bibFields recPages123 :=
  ⟨c3_amended.1 recPages123 "123-145" rfl rfl (by decide),
   c3_amended.2.1 "e123" (by decide),
   c3_amended.2.2.2.2.1 "123-145" (by decide),
   c3_amended.2.2.2.2.2.1 recPages123 "123-145" rfl rfl (by decide)⟩

/-- C6: the BibTeX citation key is the lowercase concatenation of the last
whitespace token of the first author, the year (or "0000" when the year is
absent/empty) and the first whitespace token of the title (or "untitled"
when the title is absent), with no deduplication of colliding keys:
distinct records with the same components keep the same key. -/
theorem c6_bibtex_key :
    (∀ (entry : Record) (a lastTok w : String) (rest ps ws : List String),
       entry.authors = a :: rest →
       pySplit a = ps ++ [lastTok] →
       pySplit (entry.title.getD "untitled") = w :: ws →
       entry.year.truthy = true →
       generate_bibtex_key entry = some (pyLower (lastTok ++ entry.year.pyStr ++ w)))
  ∧ (∀ (entry : Record) (a lastTok w : String) (rest ps ws : List String),
       entry.authors = a :: rest →
       pySplit a = ps ++ [lastTok] →
       pySplit (entry.title.getD "untitled") = w :: ws →
       (entry.year = .noneY ∨ entry.year = .strY "") →
       generate_bibtex_key entry = some (pyLower (lastTok ++ "0000" ++ w)))
  ∧ generate_bibtex_key recDoe2020 = some "doe2020deep"
  ∧ recCollideA ≠ recCollideB
  ∧ format_bibtex [recCollideA, recCollideB] =
      some ("@article\x7bdoe2020deep,\n  author = \x7bJane Doe\x7d,\n  title = \x7bDeep Learning Basics\x7d,\n  year = \x7b2020\x7d,\n  journal = \x7bA\x7d\n\x7d\n\n@article\x7bdoe2020deep,\n  author = \x7bJane Doe\x7d,\n  title = \x7bDeep Learning Basics\x7d,\n  year = \x7b2020\x7d,\n  journal = \x7bB\x7d\n\x7d") := by
  refine ⟨?_, ?_, by decide, by decide, by decide⟩
  · intro entry a lastTok w rest ps ws ha hsplit htitle hy
    simp [generate_bibtex_key, ha, hsplit, htitle, hy, List.getLast?_concat]
  · intro entry a lastTok w rest ps ws ha hsplit htitle hy
    rcases hy with h | h <;>
      simp [generate_bibtex_key, ha, hsplit, htitle, h, YearVal.truthy, List.getLast?_concat]

/-- C6: witness — the key formula applied at a concrete truthy-year record
and at a concrete falsy-year record. -/
theorem c6_witness :
    generate_bibtex_key recCollideA = some (pyLower ("Doe" ++ recCollideA.year.pyStr ++ "Deep"))
  ∧ generate_bibtex_key recNoYear = some (pyLower ("Doe" ++ "0000" ++ "Deep")) :=
  ⟨c6_bibtex_key.1 recCollideA "Jane Doe" "Doe" "Deep" [] ["Jane"] ["Learning", "Basics"]
     rfl (by decide) (by decide) (by decide),
   c6_bibtex_key.2.1 recNoYear "Jane Doe" "Doe" "Deep" [] ["Jane"] ["Learning", "Basics"]
     rfl (by decide) (by decide) (Or.inl rfl)⟩

/-- C10: when the authors list is empty, generate_bibtex_key substitutes
the literal "Unknown", giving "unknown" followed by the year (or "0000")
and the first title token, all lowercased. -/
theorem c10_unknown_author_key :
    (∀ (entry : Record) (w : String) (ws : List String),
       entry.authors = [] →
       pySplit (entry.title.getD "untitled") = w :: ws →
       entry.year.truthy = true →
       generate_bibtex_key entry = some (pyLower ("Unknown" ++ entry.year.pyStr ++ w)))
  ∧ (∀ (entry : Record) (w : String) (ws : List String),
       entry.authors = [] →
       pySplit (entry.title.getD "untitled") = w :: ws →
       (entry.year = .noneY ∨ entry.year = .strY "") →
       generate_bibtex_key entry = some (pyLower ("Unknown" ++ "0000" ++ w)))
  ∧ generate_bibtex_key recNoAuthors = some "unknown2020deep" := by
  refine ⟨?_, ?_, by decide⟩
  · intro entry w ws ha htitle hy
    simp [generate_bibtex_key, ha, htitle, hy]
  · intro entry w ws ha htitle hy
    rcases hy with h | h <;>
      simp [generate_bibtex_key, ha, htitle, h, YearVal.truthy]

/-- C10: witness — the "Unknown" substitution applied at a concrete record
with an empty authors list. -/
theorem c10_witness :
    generate_bibtex_key recNoAuthors =
      some (pyLower ("Unknown" ++ recNoAuthors.year.pyStr ++ "Deep")) :=
  c10_unknown_author_key.1 recNoAuthors "Deep" ["Learning"] rfl (by decide) (by decide)

/-- C7: the aggregated sequence is exactly the concatenation of the
per-provider lists in the fixed order Crossref, Google Books, Semantic
Scholar, Open Library, preserving each provider's internal order, with no
re-sorting and no deduplication; metadata extraction maps over that
concatenation providerwise. -/
theorem c7_aggregation :
    (∀ (c : List CrossrefItem) (g : List GBItem) (s : List S2Item) (o : List OLItem),
       searchResults c g s o =
         c.map RawItem.crossref ++ g.map RawItem.google_books ++
         s.map RawItem.semantic_scholar ++ o.map RawItem.open_library
     ∧ (searchResults c g s o).map extract_metadata =
         c.map (fun i => extract_crossref i) ++
         g.map (fun i => some (extract_google_books i)) ++
         s.map (fun i => extract_semantic_scholar i) ++
         o.map (fun i => some (extract_open_library i)))
  ∧ searchResults [crossrefItemA, crossrefItemB] [gbItemC] [] [olItemD] =
      [RawItem.crossref crossrefItemA, RawItem.crossref crossrefItemB,
       RawItem.google_books gbItemC, RawItem.open_library olItemD] := by
  refine ⟨?_, by decide⟩
  intro c g s o
  constructor
  · simp [searchResults, List.append_assoc]
  · simp [searchResults, List.map_append, List.map_map, Function.comp_def, extract_metadata]

/-- C8: the APA renderer uppercases the first character of a nonempty
title; for ARTICLE records the remaining characters are forced to
lowercase, for BOOK records they are left as given — "the Future of ai"
becomes "The future of ai" and "the great gatsby" becomes
"The great gatsby". -/
theorem c8_title_case :
    (∀ (c : Char) (rest : List Char),
       apaTitle .article (String.mk (c :: rest)) = String.mk (c.toUpper :: rest.map Char.toLower))
  ∧ (∀ (c : Char) (rest : List Char),
       apaTitle .book (String.mk (c :: rest)) = String.mk (c.toUpper :: rest))
  ∧ apaTitle .article "the Future of ai" = "The future of ai"
  ∧ apaTitle .book "the great gatsby" = "The great gatsby"
  ∧ format_apa_from_metadata recTitleArticle = " (). The future of ai. ."
  ∧ format_apa_from_metadata recTitleBook = " (). The great gatsby." := by
  refine ⟨fun c rest => rfl, fun c rest => rfl, by decide, by decide, by decide, by decide⟩

end RefFinder
